import Mathlib

/-!
Shallow embedding of the grievance-intake application, from the two source
files of the repository: backend/nlp.py (training and prediction of the
complaint-category classifier) and backend/app.py (the Flask route
handlers). Pure Python functions become Lean functions; the filesystem and
the SQLite database become an explicit state threaded through the
operations; a raised exception becomes an Except error value.

External library calls are modelled by their documented contracts:
scikit-learn fitting is abstracted over the numerically learned scoring
function (a parameter of the embedding), while the structural facts about
it — the class list comes from the training labels, prediction takes the
class at the argmax of the per-class scores — are embedded faithfully;
joblib dump/load is modelled as storing and retrieving the value itself.
-/

namespace Grievance

/-- Path constant DATA_PATH from nlp.py. -/
def DATA_PATH : String := "data/complaints.csv"

/-- Path constant MODEL_PATH from nlp.py. -/
def MODEL_PATH : String := "models/grievance_model.pkl"

/-- A pandas DataFrame as read from the CSV dataset: a list of named
columns, each a list of string cell values. -/
structure Dataset where
  cols : List (String × List String)
deriving DecidableEq

/-- df.columns -/
def Dataset.columns (d : Dataset) : List String := d.cols.map Prod.fst

/-- Column access df[c]; empty when the column is absent (the code only
reads columns it has checked for). -/
def Dataset.get (d : Dataset) (c : String) : List String :=
  match d.cols.find? (fun p => p.1 = c) with
  | some p => p.2
  | none => []

/-- The Python exceptions raised by nlp.py: FileNotFoundError carrying the
missing path (the DatasetMissing / ModelNotFound errors of the design),
and ValueError carrying the missing column name (SchemaInvalid). -/
inductive NlpError where
  | fileNotFound (path : String)
  | valueError (missingColumn : String)
deriving DecidableEq

/-- Linear congruential step; stands in for the numpy Mersenne-Twister
pseudo-random stream seeded by random_state=42. Deterministic given the
seed, which is all the claims use. -/
def lcg (s : Nat) : Nat := (1103515245 * s + 12345) % 2147483648

/-- Select the element at index n of the list x :: xs (clamped to the last
element), returning it together with the remaining elements in order. -/
def pick {α : Type} (x : α) (xs : List α) : Nat → α × List α
  | 0 => (x, xs)
  | n + 1 =>
    match xs with
    | [] => (x, [])
    | y :: ys =>
      let p := pick y ys n
      (p.1, x :: p.2)

/-- Fuel-indexed seeded shuffle; with fuel = length this is a Fisher-Yates
style deterministic permutation of the list. -/
def shuffleFuel {α : Type} : Nat → Nat → List α → List α
  | 0, _, l => l
  | _ + 1, _, [] => []
  | fuel + 1, seed, x :: xs =>
    let p := pick x xs (seed % (xs.length + 1))
    p.1 :: shuffleFuel fuel (lcg seed) p.2

/-- The deterministic permutation produced by the seeded random state:
models the shuffle inside sklearn train_test_split(random_state=42). -/
def shuffleSeeded {α : Type} (seed : Nat) (l : List α) : List α :=
  shuffleFuel l.length seed l

/-- Number of held-out samples for test_size=0.2: ceil(0.2 * n), as
computed by sklearn. -/
def nTest (n : Nat) : Nat := (n + 4) / 5

/-- train_test_split(X, y, test_size=0.2, random_state=42) on the zipped
(text, label) rows: shuffle deterministically under the fixed seed, take
the first ceil(0.2 n) rows as the held-out subset and the rest as the
training subset. Returns (train, test). -/
def train_test_split (data : List (String × String)) :
    List (String × String) × List (String × String) :=
  let shuffled := shuffleSeeded 42 data
  (shuffled.drop (nTest data.length), shuffled.take (nTest data.length))

/-- The fitted Pipeline([("tfidf", TfidfVectorizer(stop_words="english")),
("clf", LogisticRegression(max_iter=1000))]) artifact. The numeric result
of fitting is abstracted as a per-class scoring function (decision scores
as rationals); the configuration and the learned class list are explicit. -/
structure FittedPipeline where
  tfidf_stop_words : Option String
  clf_max_iter : Nat
  classes : List String
  score : String → List Rat

/-- Index of the first maximum of a list of scores (numpy argmax); 0 on
the empty list. -/
def argmax : List Rat → Nat
  | [] => 0
  | x :: xs =>
    let j := argmax xs
    if x < xs.getD j x then j + 1 else 0

/-- A score generator: the abstraction of the numeric optimization inside
LogisticRegression.fit, mapping the training rows to the learned
per-class decision-score function. -/
def ScoreGen : Type := List (String × String) → String → List Rat

/-- model.fit(X_train, y_train) for the TF-IDF + logistic-regression
pipeline: records the configuration, the classes seen in the training
labels, and the learned scoring function over the training rows only. -/
def fitPipeline (train : List (String × String)) (g : ScoreGen) :
    FittedPipeline :=
  { tfidf_stop_words := some "english"
  , clf_max_iter := 1000
  , classes := (train.map Prod.snd).dedup
  , score := g train }

/-- model.predict([text])[0]: the class at the argmax of the decision
scores for the text (sklearn returns classes_[argmax]). -/
def pipelinePredict (m : FittedPipeline) (text : String) : String :=
  m.classes.getD (argmax (m.score text)) ""

/-- The filesystem state nlp.py touches: the dataset file at DATA_PATH and
the serialized model artifact at MODEL_PATH (joblib serialization is
modelled as storing the value itself). -/
structure FSState where
  dataset : Option Dataset
  modelFile : Option FittedPipeline

/-- The rows (X, y) = (df["Complaint_Text"], df["Category"]) zipped into
(text, label) pairs. -/
def datasetPairs (df : Dataset) : List (String × String) :=
  (df.get "Complaint_Text").zip (df.get "Category")

/-- required_cols = ["Complaint_Text", "Category"] from train_model. -/
def required_cols : List String := ["Complaint_Text", "Category"]

/-- train_model() from nlp.py: raise FileNotFoundError when the dataset
file is absent; read the dataset; raise ValueError at the first required
column missing from it; split 80/20 under the fixed seed; fit the
pipeline on the training subset; save the artifact to MODEL_PATH.
Returns the raised exception or unit, paired with the resulting state. -/
def train_model (g : ScoreGen) (s : FSState) : Except NlpError Unit × FSState :=
  match s.dataset with
  | none => (.error (.fileNotFound DATA_PATH), s)
  | some df =>
    match required_cols.find? (fun c => !(df.columns.contains c)) with
    | some c => (.error (.valueError c), s)
    | none =>
      let split := train_test_split (datasetPairs df)
      let m := fitPipeline split.1 g
      (.ok (), { s with modelFile := some m })

/-- predict_category(text) from nlp.py: raise FileNotFoundError when no
artifact exists at MODEL_PATH; otherwise load the artifact and return
model.predict([text])[0]. The state is returned unchanged on both paths
(the function performs no writes). -/
def predict_category (s : FSState) (text : String) :
    Except NlpError String × FSState :=
  match s.modelFile with
  | none => (.error (.fileNotFound MODEL_PATH), s)
  | some m => (.ok (pipelinePredict m text), s)

/-! ### Lemmas about the shuffle and the split -/

theorem pick_perm {α : Type} (n : Nat) (x : α) (xs : List α) :
    ((pick x xs n).1 :: (pick x xs n).2).Perm (x :: xs) := by
  induction n generalizing x xs with
  | zero => simp [pick]
  | succ n ih =>
    cases xs with
    | nil => simp [pick]
    | cons y ys =>
      simp only [pick]
      exact (List.Perm.swap x (pick y ys n).1 (pick y ys n).2).trans
        ((ih y ys).cons x)

theorem shuffleFuel_perm {α : Type} (fuel : Nat) :
    ∀ (seed : Nat) (l : List α), (shuffleFuel fuel seed l).Perm l := by
  induction fuel with
  | zero => intro seed l; simp [shuffleFuel]
  | succ fuel ih =>
    intro seed l
    cases l with
    | nil => simp [shuffleFuel]
    | cons x xs =>
      simp only [shuffleFuel]
      exact ((ih (lcg seed) _).cons _).trans (pick_perm _ x xs)

theorem shuffleSeeded_perm {α : Type} (seed : Nat) (l : List α) :
    (shuffleSeeded seed l).Perm l :=
  shuffleFuel_perm l.length seed l

theorem train_test_split_perm (data : List (String × String)) :
    ((train_test_split data).2 ++ (train_test_split data).1).Perm data := by
  simp only [train_test_split, List.take_append_drop]
  exact shuffleSeeded_perm 42 data

theorem train_test_split_test_length (data : List (String × String)) :
    (train_test_split data).2.length = min (nTest data.length) data.length := by
  simp [train_test_split, (shuffleSeeded_perm 42 data).length_eq]

theorem train_test_split_train_length (data : List (String × String)) :
    (train_test_split data).1.length = data.length - nTest data.length := by
  simp [train_test_split, (shuffleSeeded_perm 42 data).length_eq]

/-- The argmax of a nonempty score list is a valid index. -/
theorem argmax_lt_length (l : List Rat) (h : l ≠ []) : argmax l < l.length := by
  induction l with
  | nil => exact absurd rfl h
  | cons x xs ih =>
    simp only [argmax]
    by_cases hlt : x < xs.getD (argmax xs) x
    · have hxs : xs ≠ [] := by
        intro he
        subst he
        simp [List.getD] at hlt
      simp only [if_pos hlt, List.length_cons]
      exact Nat.succ_lt_succ (ih hxs)
    · simp only [if_neg hlt, List.length_cons]
      exact Nat.succ_pos _

/-! ### Embedding of app.py -/

/-- A row of the complaints table (id and timestamp are assigned by
SQLite; the insertion order of the list stands in for them). -/
structure ComplaintRecord where
  username : String
  village_name : String
  text : String
  category : String
  ctype : String
deriving DecidableEq

/-- The state app.py touches: the nlp filesystem state, the complaints
table at DB_PATH, the CSV export at CSV_PATH, and the uploaded files
saved under data/. -/
structure AppState where
  nlp : FSState
  db : List ComplaintRecord
  csvFile : Option (List ComplaintRecord)
  savedFiles : List String

/-- The POST form of the complaint page: village_name, ctype (defaulting
as in request.form.get), the complaint_text field, and the optional
uploaded file (by filename). -/
structure SubmissionForm where
  village_name : String
  ctype : String
  complaint_text : String
  file : Option String

/-- The text-extraction block of complaint_page: text starts as "", is
the complaint_text field for ctype "text", and for "image"/"audio" with a
file present is the output of the external recognizer (EasyOCR or
Whisper, passed in as opaque functions of the saved file). -/
def extractedText (ocr transcribe : String → String)
    (form : SubmissionForm) : String :=
  if form.ctype = "text" then form.complaint_text
  else if form.ctype = "image" ∨ form.ctype = "audio" then
    match form.file with
    | some f => if form.ctype = "image" then ocr f else transcribe f
    | none => ""
  else ""

/-- The try/except block of complaint_page: the predicted category, or
the literal "Unknown" when predict_category raises any exception. -/
def categoryFor (s : FSState) (text : String) : String :=
  match (predict_category s text).1 with
  | .ok c => c
  | .error _ => "Unknown"

/-- The filenames saved by the upload branch of complaint_page. -/
def filesSavedBy (form : SubmissionForm) (old : List String) : List String :=
  if form.ctype = "image" ∨ form.ctype = "audio" then
    match form.file with
    | some f => old ++ ["data/" ++ f]
    | none => old
  else old

/-- The POST branch of complaint_page(username) in app.py: extract the
text, predict the category falling back to "Unknown" on any exception,
insert the record into the complaints table, rewrite the CSV export from
the full table, and return the success message. -/
def complaint_page_post (ocr transcribe : String → String)
    (username : String) (form : SubmissionForm) (s : AppState) :
    AppState × String :=
  let text := extractedText ocr transcribe form
  let category := categoryFor s.nlp text
  let r : ComplaintRecord :=
    { username := username
    , village_name := form.village_name
    , text := text
    , category := category
    , ctype := form.ctype }
  let db := s.db ++ [r]
  ({ nlp := (predict_category s.nlp text).2
   , db := db
   , csvFile := some db
   , savedFiles := filesSavedBy form s.savedFiles },
   "Complaint submitted! Predicted category: " ++ category)

/-- A response of a route handler. -/
inductive HttpResponse where
  | redirectTo (path : String)
  | render (template : String)
deriving DecidableEq

/-- The login route of app.py. On POST it reads username (default "")
and role (default "user") from the form; role "user" redirects to the
complaint page for that username, any other role redirects to the admin
dashboard; no password or credential is read. GET renders the login
page. -/
def login (method : String) (username role : Option String) : HttpResponse :=
  if method = "POST" then
    let u := username.getD ""
    let r := role.getD "user"
    if r = "user" then .redirectTo ("/complaint/" ++ u)
    else .redirectTo "/admin"
  else .render "login.html"

/-- The admin dashboard route: selects every complaint, ordered by
timestamp descending (most recently inserted first), with no
authentication check. -/
def admin_dashboard (s : AppState) : List ComplaintRecord := s.db.reverse

/-! ### Concrete instances used by the witnesses -/

/-- The concrete training dataset of the spec scenario, as the DataFrame
read from the CSV. -/
def df0 : Dataset :=
  ⟨[("Complaint_Text",
     ["Internet not working in my village", "Street light broken",
      "No water supply", "Network tower down again"]),
    ("Category", ["Network", "Infrastructure", "Water", "Network"])]⟩

/-- A score generator assigning every class the score 0 (any concrete
stand-in for the learned weights works for the structural claims). -/
def g0 : ScoreGen :=
  fun d _ => List.replicate ((d.map Prod.snd).dedup).length 0

/-- Untrained filesystem state holding the scenario dataset. -/
def s0 : FSState := ⟨some df0, none⟩

/-- The filesystem state after training on the scenario dataset. -/
def s1 : FSState := (train_model g0 s0).2

theorem g0_arity (d : List (String × String)) (u : String) :
    (g0 d u).length = ((d.map Prod.snd).dedup).length := by
  simp [g0]

/-- Filesystem state with no dataset and no model. -/
def sNone : FSState := ⟨none, none⟩

/-- A dataset missing the required Category column. -/
def dfBad : Dataset := ⟨[("Complaint_Text", ["street light broken"])]⟩

/-- Filesystem state holding only the bad-schema dataset. -/
def sBad : FSState := ⟨some dfBad, none⟩

/-- Stand-in for the EasyOCR recognizer (opaque external service). -/
def ocr0 : String → String := fun _ => ""

/-- Stand-in for the Whisper transcriber (opaque external service). -/
def transcribe0 : String → String := fun _ => ""

/-- Application state with no trained model and an empty complaints
table. -/
def appState0 : AppState := ⟨s0, [], none, []⟩

/-! ### Claim theorems -/

/-- Claim C2: for every input text, calling predict_category with no
artifact present at MODEL_PATH raises the ModelNotFound error (a
FileNotFoundError naming MODEL_PATH) and performs no state change. -/
theorem predict_missing_model (s : FSState) (t : String)
    (h : s.modelFile = none) :
    predict_category s t = (.error (.fileNotFound MODEL_PATH), s) := by
  simp [predict_category, h]

theorem predict_missing_model_witness :
    s0.modelFile = none ∧
    predict_category s0 "hello" = (.error (.fileNotFound MODEL_PATH), s0) :=
  ⟨rfl, predict_missing_model s0 "hello" rfl⟩

/-- Claim C3: train_model raises the DatasetMissing error (a
FileNotFoundError naming DATA_PATH) when the dataset file is absent, and
the SchemaInvalid error (a ValueError naming a required column) when the
Complaint_Text or Category column is missing; in both failure cases the
state — including any prior artifact at MODEL_PATH — is unchanged. -/
theorem train_model_failure_atomic (g : ScoreGen) (s : FSState) :
    (s.dataset = none →
      train_model g s = (.error (.fileNotFound DATA_PATH), s)) ∧
    (∀ df, s.dataset = some df →
      ("Complaint_Text" ∉ df.columns ∨ "Category" ∉ df.columns) →
      ∃ c, c ∈ required_cols ∧ c ∉ df.columns ∧
        train_model g s = (.error (.valueError c), s)) := by
  constructor
  · intro h
    simp [train_model, h]
  · intro df h1 h2
    by_cases hct : "Complaint_Text" ∈ df.columns
    · have hcat : "Category" ∉ df.columns := by
        rcases h2 with h | h
        · exact absurd hct h
        · exact h
      refine ⟨"Category", by simp [required_cols], hcat, ?_⟩
      simp [train_model, h1, required_cols, List.find?, hct, hcat]
    · refine ⟨"Complaint_Text", by simp [required_cols], hct, ?_⟩
      simp [train_model, h1, required_cols, List.find?, hct]

theorem train_model_failure_atomic_witness :
    train_model g0 sNone = (.error (.fileNotFound DATA_PATH), sNone) ∧
    (∃ c, c ∈ required_cols ∧ c ∉ dfBad.columns ∧
      train_model g0 sBad = (.error (.valueError c), sBad)) :=
  ⟨(train_model_failure_atomic g0 sNone).1 rfl,
   (train_model_failure_atomic g0 sBad).2 dfBad rfl (Or.inr (by decide))⟩

/-- Claim C4: prediction is deterministic — after predict_category
succeeds with label c and state s1, running predict_category again on s1
with the same text yields the same label c and the same state; there is
no randomness at inference time. -/
theorem predict_deterministic (s s1 : FSState) (t c : String)
    (h : predict_category s t = (.ok c, s1)) :
    predict_category s1 t = (.ok c, s1) := by
  cases hm : s.modelFile with
  | none => simp [predict_category, hm] at h
  | some m =>
    simp only [predict_category, hm] at h
    obtain ⟨hc, hs⟩ := Prod.mk.injEq .. ▸ h
    have hc' : pipelinePredict m t = c := by
      injection hc
    subst hs
    simp [predict_category, hm, hc']

theorem predict_deterministic_witness :
    predict_category s1 "water issue" = (.ok "Infrastructure", s1) :=
  predict_deterministic s1 s1 "water issue" "Infrastructure" rfl

/-- A successful training run from dataset df leaves the state unchanged
except that the artifact at MODEL_PATH is the pipeline fitted on the
training subset of the 80/20 split. -/
theorem train_model_ok (g : ScoreGen) (s : FSState) (df : Dataset)
    (s' : FSState) (h1 : s.dataset = some df)
    (h2 : train_model g s = (.ok (), s')) :
    s' = { s with modelFile := some (fitPipeline (train_test_split (datasetPairs df)).1 g) } := by
  simp only [train_model, h1] at h2
  cases hf : required_cols.find? (fun c => !(df.columns.contains c)) with
  | some c =>
    rw [hf] at h2
    simp at h2
  | none =>
    rw [hf] at h2
    simp only [Prod.mk.injEq] at h2
    rw [h1]
    exact h2.2.symm

/-- Claim C5: save/load round-trip — predicting through the state written
by a successful training run (the loaded artifact) yields, for every
probe text, exactly the prediction of the in-memory pipeline fitted on
the training subset of the dataset. -/
theorem roundtrip (g : ScoreGen) (s : FSState) (df : Dataset)
    (s' : FSState) (t : String) (h1 : s.dataset = some df)
    (h2 : train_model g s = (.ok (), s')) :
    predict_category s' t =
      (.ok (pipelinePredict
        (fitPipeline (train_test_split (datasetPairs df)).1 g) t), s') := by
  have hs := train_model_ok g s df s' h1 h2
  subst hs
  simp [predict_category]

theorem roundtrip_witness :
    predict_category s1 "road damaged" =
      (.ok (pipelinePredict
        (fitPipeline (train_test_split (datasetPairs df0)).1 g0)
        "road damaged"), s1) :=
  roundtrip g0 s0 df0 s1 "road damaged" rfl rfl

/-- Claim C7: a successful training run stores the pipeline fitted on the
training subset only; the vectorizer removes English stop-words, the
classifier caps iterations at 1000, the classes are those of the training
subset labels, and the 80/20 split is a permutation of the dataset rows
with ceil(0.2 n) rows held out; the split is a pure function of the data
(the random seed is fixed at 42), hence deterministic. -/
theorem training_procedure (g : ScoreGen) (s : FSState) (df : Dataset)
    (s' : FSState) (h1 : s.dataset = some df)
    (h2 : train_model g s = (.ok (), s')) :
    s'.modelFile =
      some (fitPipeline (train_test_split (datasetPairs df)).1 g) ∧
    (fitPipeline (train_test_split (datasetPairs df)).1 g).tfidf_stop_words
      = some "english" ∧
    (fitPipeline (train_test_split (datasetPairs df)).1 g).clf_max_iter
      = 1000 ∧
    (fitPipeline (train_test_split (datasetPairs df)).1 g).classes =
      ((train_test_split (datasetPairs df)).1.map Prod.snd).dedup ∧
    (train_test_split (datasetPairs df)).2.length =
      nTest (datasetPairs df).length ∧
    (train_test_split (datasetPairs df)).1.length =
      (datasetPairs df).length - nTest (datasetPairs df).length ∧
    ((train_test_split (datasetPairs df)).2 ++
      (train_test_split (datasetPairs df)).1).Perm (datasetPairs df) := by
  refine ⟨?_, rfl, rfl, rfl, ?_, train_test_split_train_length _,
    train_test_split_perm _⟩
  · rw [train_model_ok g s df s' h1 h2]
  · rw [train_test_split_test_length]
    have hle : nTest (datasetPairs df).length ≤ (datasetPairs df).length := by
      simp only [nTest]
      omega
    exact Nat.min_eq_left hle

theorem training_procedure_witness :
    s1.modelFile =
      some (fitPipeline (train_test_split (datasetPairs df0)).1 g0) ∧
    (fitPipeline (train_test_split (datasetPairs df0)).1 g0).tfidf_stop_words
      = some "english" ∧
    (fitPipeline (train_test_split (datasetPairs df0)).1 g0).clf_max_iter
      = 1000 ∧
    (fitPipeline (train_test_split (datasetPairs df0)).1 g0).classes =
      ((train_test_split (datasetPairs df0)).1.map Prod.snd).dedup ∧
    (train_test_split (datasetPairs df0)).2.length =
      nTest (datasetPairs df0).length ∧
    (train_test_split (datasetPairs df0)).1.length =
      (datasetPairs df0).length - nTest (datasetPairs df0).length ∧
    ((train_test_split (datasetPairs df0)).2 ++
      (train_test_split (datasetPairs df0)).1).Perm (datasetPairs df0) :=
  training_procedure g0 s0 df0 s1 rfl rfl

/-- Claim C1: label closure — when a trained artifact exists (written by
a successful training run from dataset df, with the learned scoring
returning one score per class), every successful prediction returns a
label that appears in the Category column of the training dataset. -/
theorem label_closure (g : ScoreGen) (s : FSState) (df : Dataset)
    (s' s'' : FSState) (t c : String)
    (harity : ∀ d u, (g d u).length = ((d.map Prod.snd).dedup).length)
    (h1 : s.dataset = some df)
    (h2 : train_model g s = (.ok (), s'))
    (hne : (train_test_split (datasetPairs df)).1 ≠ [])
    (h3 : predict_category s' t = (.ok c, s'')) :
    c ∈ df.get "Category" := by
  have hs := train_model_ok g s df s' h1 h2
  subst hs
  simp only [predict_category, Prod.mk.injEq, Except.ok.injEq] at h3
  obtain ⟨hc, -⟩ := h3
  have hclne : ((train_test_split (datasetPairs df)).1.map Prod.snd).dedup
      ≠ [] := by
    simp only [ne_eq, List.dedup_eq_nil, List.map_eq_nil_iff]
    exact hne
  have hlen := harity (train_test_split (datasetPairs df)).1 t
  have hargmax :
      argmax (g (train_test_split (datasetPairs df)).1 t) <
      ((train_test_split (datasetPairs df)).1.map Prod.snd).dedup.length := by
    rw [← hlen]
    refine argmax_lt_length _ ?_
    intro he
    rw [he] at hlen
    exact hclne (List.length_eq_zero.mp hlen.symm)
  have hmem : c ∈
      ((train_test_split (datasetPairs df)).1.map Prod.snd).dedup := by
    rw [← hc]
    simp only [pipelinePredict, fitPipeline]
    rw [List.getD_eq_getElem _ _ hargmax]
    exact List.getElem_mem hargmax
  rw [List.mem_dedup] at hmem
  obtain ⟨p, hp, hpc⟩ := List.mem_map.mp hmem
  have hpdata : p ∈ datasetPairs df := by
    have hp' : p ∈ shuffleSeeded 42 (datasetPairs df) := by
      simp only [train_test_split] at hp
      exact List.mem_of_mem_drop hp
    exact (shuffleSeeded_perm 42 (datasetPairs df)).mem_iff.mp hp'
  have := (List.of_mem_zip hpdata).2
  rw [hpc] at this
  exact this

theorem label_closure_witness :
    predict_category s1 "internet is down" = (.ok "Infrastructure", s1) ∧
    "Infrastructure" ∈ df0.get "Category" :=
  ⟨rfl, label_closure g0 s0 df0 s1 s1 "internet is down" "Infrastructure"
    g0_arity rfl rfl (by decide) rfl⟩

/-- Claim C6: caller fallback — when predict_category raises any error on
the extracted text, the complaint submission still completes: the record
is inserted into the complaints table with the literal category
"Unknown". -/
theorem prediction_failure_fallback (ocr transcribe : String → String)
    (username : String) (form : SubmissionForm) (s : AppState)
    (e : NlpError)
    (h : (predict_category s.nlp (extractedText ocr transcribe form)).1 =
      .error e) :
    (complaint_page_post ocr transcribe username form s).1.db =
      s.db ++ [{ username := username
               , village_name := form.village_name
               , text := extractedText ocr transcribe form
               , category := "Unknown"
               , ctype := form.ctype }] := by
  simp [complaint_page_post, categoryFor, h]

theorem prediction_failure_fallback_witness :
    (predict_category appState0.nlp
      (extractedText ocr0 transcribe0 ⟨"Pune", "text", "internet is down", none⟩)).1 =
      .error (.fileNotFound MODEL_PATH) ∧
    (complaint_page_post ocr0 transcribe0 "alice"
      ⟨"Pune", "text", "internet is down", none⟩ appState0).1.db =
      appState0.db ++ [⟨"alice", "Pune", "internet is down", "Unknown", "text"⟩] :=
  ⟨rfl, prediction_failure_fallback ocr0 transcribe0 "alice"
    ⟨"Pune", "text", "internet is down", none⟩ appState0
    (.fileNotFound MODEL_PATH) rfl⟩

/-- Claim C9: an image or audio submission with no attached file, and a
text submission with an empty complaint field, both extract the empty
string, and a complaint record is nevertheless inserted into the table
with that empty text and a category field. -/
theorem empty_text_still_stored (ocr transcribe : String → String)
    (username : String) (form : SubmissionForm) (s : AppState)
    (h : ((form.ctype = "image" ∨ form.ctype = "audio") ∧ form.file = none)
      ∨ (form.ctype = "text" ∧ form.complaint_text = "")) :
    extractedText ocr transcribe form = "" ∧
    (complaint_page_post ocr transcribe username form s).1.db =
      s.db ++ [{ username := username
               , village_name := form.village_name
               , text := ""
               , category := categoryFor s.nlp ""
               , ctype := form.ctype }] := by
  have hex : extractedText ocr transcribe form = "" := by
    rcases h with ⟨hct, hf⟩ | ⟨hct, he⟩
    · rcases hct with h1 | h1 <;> simp [extractedText, h1, hf]
    · simp [extractedText, hct, he]
  refine ⟨hex, ?_⟩
  simp [complaint_page_post, hex]

theorem empty_text_still_stored_witness :
    extractedText ocr0 transcribe0 ⟨"Pune", "image", "", none⟩ = "" ∧
    (complaint_page_post ocr0 transcribe0 "bob"
      ⟨"Pune", "image", "", none⟩ appState0).1.db =
      appState0.db ++
        [⟨"bob", "Pune", "", categoryFor appState0.nlp "", "image"⟩] :=
  empty_text_still_stored ocr0 transcribe0 "bob"
    ⟨"Pune", "image", "", none⟩ appState0 (Or.inl ⟨Or.inl rfl, rfl⟩)

/-- Claim C10: every POST to the login route whose role field holds any
value other than "user" is answered with a redirect to the admin
dashboard, for every submitted username — no credential or password check
is performed. -/
theorem admin_redirect_unauthenticated (username : Option String)
    (r : String) (h : r ≠ "user") :
    login "POST" username (some r) = .redirectTo "/admin" := by
  simp [login, h]

theorem admin_redirect_unauthenticated_witness :
    "admin" ≠ "user" ∧
    login "POST" (some "eve") (some "admin") = .redirectTo "/admin" :=
  ⟨by decide, admin_redirect_unauthenticated (some "eve") "admin" (by decide)⟩

end Grievance
